import Mathlib

/-!
# Verification of the Gemini chat web application (src/app.py)

Shallow embedding of the Flask application `app.py`: three relational tables
(`users`, `chat_sessions`, `chat_messages`) and the HTTP endpoint handlers
`ask`, `switch_session`, `clear_history` and `register`, modelled as pure
functions over an explicit database state.  External nondeterminism (whether
the database connection could be obtained, whether a query raised, the result
of the external AI call) is passed in as explicit arguments.  SQL `TIMESTAMP`
values are modelled as natural numbers counting seconds.
-/

set_option autoImplicit false

namespace GeminiChat

/-- A row of the `users` table (`id SERIAL, username UNIQUE NOT NULL,
password NOT NULL, email, created_at`). -/
structure User where
  id : Nat
  username : String
  password : String
  email : Option String
  created_at : Nat
  deriving Repr, DecidableEq

/-- A row of the `chat_sessions` table (`id SERIAL, user_id, created_at`). -/
structure ChatSession where
  id : Nat
  user_id : Nat
  created_at : Nat
  deriving Repr, DecidableEq

/-- A row of the `chat_messages` table (`id SERIAL, session_id, user_id,
message NOT NULL, response NOT NULL, timestamp`). -/
structure ChatMessage where
  id : Nat
  session_id : Nat
  user_id : Nat
  message : String
  response : String
  timestamp : Nat
  deriving Repr, DecidableEq

/-- The database state: the three tables plus the next value of each `SERIAL`
id sequence (PostgreSQL sequences never reuse values). -/
structure Db where
  users : List User
  chat_sessions : List ChatSession
  chat_messages : List ChatMessage
  nextUserId : Nat
  nextSessionId : Nat
  nextMessageId : Nat
  deriving Repr, DecidableEq

/-- Python `str.strip()` with no argument: remove leading and trailing
whitespace characters. -/
def strip (s : String) : String :=
  String.mk (((s.data.dropWhile Char.isWhitespace).reverse.dropWhile
    Char.isWhitespace).reverse)

/-- Python `str.lower()`: lowercase every character (modelled for the ASCII
range, which covers the literals the handlers compare against). -/
def lower (s : String) : String :=
  String.mk (s.data.map Char.toLower)

/-- Zero-pad a number below 100 to two digits, as `to_char` patterns
`HH24` and `MI` do. -/
def pad2 (n : Nat) : String :=
  if n < 10 then "0" ++ toString n else toString n

/-- Models PostgreSQL `to_char(timestamp, 'HH24:MI')` on a timestamp counted
in seconds: the zero-padded hour of day and minute of hour. -/
def hhmi (t : Nat) : String :=
  pad2 (t / 3600 % 24) ++ ":" ++ pad2 (t / 60 % 60)

/-- The minute of the day of a timestamp counted in seconds.  Lexicographic
order on the fixed-width zero-padded `HH24:MI` string produced by `hhmi`
agrees with numeric order on the minute of the day, so sorting by this key
models `ORDER BY` on the `to_char(timestamp, 'HH24:MI')` output column. -/
def minuteOfDay (t : Nat) : Nat :=
  t / 60 % 1440

/-- The rows of `chat_messages` belonging to a session, in ascending order of
the stored `timestamp` column.  This is the query of the `ask` handler:
`SELECT message, response FROM chat_messages WHERE session_id = %s ORDER BY
timestamp ASC` — no output column shadows the name `timestamp`, so the sort
key is the stored column. -/
def sessionMessagesByTime (db : Db) (sid : Nat) : List ChatMessage :=
  List.insertionSort (fun a b => a.timestamp ≤ b.timestamp)
    (db.chat_messages.filter (fun m => m.session_id == sid))

/-- The rows of `chat_messages` belonging to a session, in the order produced
by the queries of the `home` and `switch_session` handlers:
`SELECT message as question, response, to_char(timestamp, 'HH24:MI') as
timestamp FROM chat_messages WHERE session_id = %s ORDER BY timestamp ASC`.
The select list aliases the `to_char` string to the name `timestamp`, and in
PostgreSQL a bare name in `ORDER BY` resolves to the output column alias
before the input column, so the sort key is the formatted `HH24:MI` string,
i.e. the minute of the day — not the stored timestamp. -/
def sessionMessagesByHHMI (db : Db) (sid : Nat) : List ChatMessage :=
  List.insertionSort (fun a b => minuteOfDay a.timestamp ≤ minuteOfDay b.timestamp)
    (db.chat_messages.filter (fun m => m.session_id == sid))

/-- A row as returned to the caller by `home` and `switch_session`:
`message as question, response, to_char(timestamp, 'HH24:MI') as timestamp`. -/
structure MessageRow where
  question : String
  response : String
  timestamp : String
  deriving Repr, DecidableEq

/-- The message list returned by `switch_session` (and rendered by `home`)
for a session: the `sessionMessagesByHHMI` rows projected to
`(question, response, timestamp)`. -/
def sessionRows (db : Db) (sid : Nat) : List MessageRow :=
  (sessionMessagesByHHMI db sid).map
    (fun m => { question := m.message, response := m.response, timestamp := hhmi m.timestamp })

/-- One entry of the history list handed to `model.start_chat`:
a dict `{'role': ..., 'parts': [...]}`. -/
structure Turn where
  role : String
  parts : List String
  deriving Repr, DecidableEq

/-- The chat history the `ask` handler builds from the stored rows: for each
row, in query order, a `user` turn holding the stored message followed by a
`model` turn holding the stored response. -/
def buildHistory (rows : List ChatMessage) : List Turn :=
  rows.flatMap (fun row =>
    [{ role := "user", parts := [row.message] },
     { role := "model", parts := [row.response] }])

/-- The history `ask` sends for a session when the database read succeeds. -/
def askHistory (db : Db) (sid : Nat) : List Turn :=
  buildHistory (sessionMessagesByTime db sid)

/-- The JSON value an `ask` call returns: either `{"error": ...}` (possibly
with a 400 status) or `{"response": ...}`. -/
inductive AskResp where
  | error (msg : String)
  | response (text : String)
  deriving Repr, DecidableEq

/-- The observable outcome of one `ask` request: the JSON response, the
database afterwards, the history handed to `model.start_chat` (`none` when
the AI was never called), and whether the AI model was called at all. -/
structure AskResult where
  resp : AskResp
  db : Db
  historySent : Option (List Turn)
  aiCalled : Bool
  deriving Repr, DecidableEq

/-- The `ask` handler (`POST /ask`).  Arguments beyond the database state and
the caller's Flask session (`user_id`, `session_id`):
* `isJson` — whether `request.is_json` holds;
* `message` — the JSON `message` field (`data.get('message', '')`);
* `modelOk` — whether the global `model` was initialized;
* `connOk` — whether `get_db_connection()` returned a connection;
* `historyOk` — whether the history `SELECT` ran without raising;
* `aiResult` — the outcome of `chat_session.send_message`: `.ok text` for a
  reply, `.error e` when it raised;
* `saveOk` — whether the `INSERT INTO chat_messages` committed (on failure
  the transaction is rolled back);
* `now` — the `CURRENT_TIMESTAMP` default of the inserted row. -/
def ask (db : Db) (user_id session_id : Nat) (isJson : Bool)
    (message : Option String) (modelOk connOk historyOk : Bool)
    (aiResult : Except String String) (saveOk : Bool) (now : Nat) : AskResult :=
  if !isJson then
    { resp := .error "Request must be JSON", db := db, historySent := none, aiCalled := false }
  else
    let user_input := strip (message.getD "")
    if user_input = "" then
      { resp := .error "No message provided", db := db, historySent := none, aiCalled := false }
    else if lower user_input = "exit" then
      { resp := .response "Chat session ended.", db := db, historySent := none, aiCalled := false }
    else if !modelOk then
      { resp := .error "AI model not initialized. Please check API key and model availability.",
        db := db, historySent := none, aiCalled := false }
    else
      let chat_history :=
        if connOk && historyOk then askHistory db session_id else []
      match aiResult with
      | .error e =>
          { resp := .error ("Error: " ++ e), db := db,
            historySent := some chat_history, aiCalled := true }
      | .ok response_text =>
          let db' :=
            if connOk && saveOk then
              { db with
                chat_messages := db.chat_messages ++
                  [{ id := db.nextMessageId, session_id := session_id, user_id := user_id,
                     message := user_input, response := response_text, timestamp := now }],
                nextMessageId := db.nextMessageId + 1 }
            else db
          { resp := .response response_text, db := db',
            historySent := some chat_history, aiCalled := true }

/-- The JSON value a `switch_session` call returns: either `{"error": ...}`
or `{"status": "success", "messages": [...]}`. -/
inductive SwitchResp where
  | error (msg : String)
  | success (messages : List MessageRow)
  deriving Repr, DecidableEq

/-- The observable outcome of one `switch_session` request: the JSON response
and the caller's active `session['session_id']` afterwards. -/
structure SwitchResult where
  resp : SwitchResp
  activeSession : Nat
  deriving Repr, DecidableEq

/-- The `switch_session` handler (`POST /switch_session`).  Arguments beyond
the database state, the caller's `user_id` and current active session id:
* `isJson` — whether `request.is_json` holds;
* `session_id` — the JSON `session_id` field (`data.get('session_id')`;
  `if not session_id` also rejects the Python-falsy value `0`);
* `connOk` — whether `get_db_connection()` returned a connection;
* `checkOk` — whether the ownership `SELECT` ran without raising;
* `fetchOk` — whether the message `SELECT` ran without raising (it runs after
  `session['session_id']` has already been updated). -/
def switch_session (db : Db) (user_id cur_session_id : Nat) (isJson : Bool)
    (session_id : Option Nat) (connOk checkOk fetchOk : Bool) : SwitchResult :=
  if !isJson then
    { resp := .error "Request must be JSON", activeSession := cur_session_id }
  else
    match session_id with
    | none => { resp := .error "No session ID provided", activeSession := cur_session_id }
    | some sid =>
      if sid = 0 then
        { resp := .error "No session ID provided", activeSession := cur_session_id }
      else if !connOk then
        { resp := .error "Database error", activeSession := cur_session_id }
      else if !checkOk then
        { resp := .error "database exception", activeSession := cur_session_id }
      else if !(db.chat_sessions.any (fun s => s.id == sid && s.user_id == user_id)) then
        { resp := .error "Invalid session", activeSession := cur_session_id }
      else if !fetchOk then
        { resp := .error "database exception", activeSession := sid }
      else
        { resp := .success (sessionRows db sid), activeSession := sid }

/-- The observable outcome of one `clear_history` request: the JSON response
(a status/message pair), the database afterwards, and the caller's active
`session['session_id']` afterwards. -/
structure ClearResult where
  status : String
  message : String
  db : Db
  activeSession : Nat
  deriving Repr, DecidableEq

/-- The `clear_history` handler (`POST /clear_history`).  The two `DELETE`s
are committed together before the `INSERT`, so the handler issues two
transactions.  Deleting a row of `chat_sessions` cascades to the
`chat_messages` rows referencing it (`ON DELETE CASCADE`).  Arguments:
* `connOk` — whether `get_db_connection()` returned a connection;
* `deleteOk` — whether the delete transaction committed (else rolled back);
* `insertOk` — whether the insert transaction committed (else rolled back);
* `now` — the `CURRENT_TIMESTAMP` default of the inserted session.
Whatever happens, the response is `{"status": "success", "message":
"Chat history cleared"}`. -/
def clear_history (db : Db) (user_id : Nat) (connOk deleteOk insertOk : Bool)
    (cur_session_id : Nat) (now : Nat) : ClearResult :=
  if !connOk then
    { status := "success", message := "Chat history cleared", db := db,
      activeSession := cur_session_id }
  else if !deleteOk then
    { status := "success", message := "Chat history cleared", db := db,
      activeSession := cur_session_id }
  else
    let deletedSessions := db.chat_sessions.filter (fun s => s.user_id == user_id)
    let db1 : Db :=
      { db with
        chat_messages := db.chat_messages.filter (fun m =>
          !(m.user_id == user_id) &&
          !(deletedSessions.any (fun s => s.id == m.session_id))),
        chat_sessions := db.chat_sessions.filter (fun s => !(s.user_id == user_id)) }
    if !insertOk then
      { status := "success", message := "Chat history cleared", db := db1,
        activeSession := cur_session_id }
    else
      { status := "success", message := "Chat history cleared",
        db := { db1 with
                chat_sessions := db1.chat_sessions ++
                  [{ id := db.nextSessionId, user_id := user_id, created_at := now }],
                nextSessionId := db.nextSessionId + 1 },
        activeSession := db.nextSessionId }

/-- The outcome of a `register` POST: a redirect to `home` on success, or an
error flash with the form re-rendered. -/
inductive RegisterResp where
  | error (msg : String)
  | redirectHome
  deriving Repr, DecidableEq

/-- Whether a `register` outcome is an error (form re-rendered, no login). -/
def RegisterResp.isErr : RegisterResp → Bool
  | .error _ => true
  | .redirectHome => false

/-- The observable outcome of one `register` POST: the response, the database
afterwards, and the caller's Flask session fields `user_id` and `session_id`
afterwards. -/
structure RegisterResult where
  resp : RegisterResp
  db : Db
  sessionUserId : Option Nat
  sessionSessionId : Option Nat
  deriving Repr, DecidableEq

/-- The `register` handler (`POST /register`).  Arguments:
* `username`, `password`, `email` — the form fields (username and email are
  stripped of surrounding whitespace, as in the handler);
* `hash` — the salted password hash function `generate_password_hash`,
  passed in as the external function it is;
* `connOk` — whether `get_db_connection()` returned a connection;
* `insertOk` — whether the two `INSERT`s and the commit ran without raising
  (on failure the transaction is rolled back);
* `prevUser`, `prevSession` — the caller's Flask session fields before the
  request;
* `now` — the `CURRENT_TIMESTAMP` default for the created rows. -/
def register (db : Db) (username password email : String) (hash : String → String)
    (connOk insertOk : Bool) (prevUser prevSession : Option Nat)
    (now : Nat) : RegisterResult :=
  let uname := strip username
  let mail := strip email
  if uname = "" ∨ password = "" then
    { resp := .error "Please enter both username and password", db := db,
      sessionUserId := prevUser, sessionSessionId := prevSession }
  else if password.length < 6 then
    { resp := .error "Password must be at least 6 characters long", db := db,
      sessionUserId := prevUser, sessionSessionId := prevSession }
  else if !connOk then
    { resp := .error "Database connection error", db := db,
      sessionUserId := prevUser, sessionSessionId := prevSession }
  else if db.users.any (fun u => u.username == uname) then
    { resp := .error "Username already exists", db := db,
      sessionUserId := prevUser, sessionSessionId := prevSession }
  else if mail ≠ "" ∧ db.users.any (fun u => u.email == some mail) then
    { resp := .error "Email already exists", db := db,
      sessionUserId := prevUser, sessionSessionId := prevSession }
  else if !insertOk then
    { resp := .error "Registration error", db := db,
      sessionUserId := prevUser, sessionSessionId := prevSession }
  else
    { resp := .redirectHome,
      db := { db with
              users := db.users ++
                [{ id := db.nextUserId, username := uname, password := hash password,
                   email := if mail = "" then none else some mail, created_at := now }],
              chat_sessions := db.chat_sessions ++
                [{ id := db.nextSessionId, user_id := db.nextUserId, created_at := now }],
              nextUserId := db.nextUserId + 1,
              nextSessionId := db.nextSessionId + 1 },
      sessionUserId := some db.nextUserId,
      sessionSessionId := some db.nextSessionId }

/-- The single registered user of `sampleDb`. -/
def alice : User :=
  { id := 1, username := "alice", password := "h1", email := some "a@x",
    created_at := 0 }

/-- A small concrete database used to instantiate the theorems: user 1 owns
session 1 with two messages sent either side of midnight (23:00 of day one,
01:00 of day two), and session 2 belongs to another user. -/
def sampleDb : Db :=
  { users := [alice],
    chat_sessions := [{ id := 1, user_id := 1, created_at := 0 },
                      { id := 2, user_id := 2, created_at := 1 }],
    chat_messages := [{ id := 1, session_id := 1, user_id := 1, message := "a",
                        response := "A", timestamp := 82800 },
                      { id := 2, session_id := 1, user_id := 1, message := "b",
                        response := "B", timestamp := 90000 }],
    nextUserId := 3, nextSessionId := 3, nextMessageId := 3 }

/-! ## Helper lemmas -/

theorem buildHistory_cons (r : ChatMessage) (rs : List ChatMessage) :
    buildHistory (r :: rs) =
      { role := "user", parts := [r.message] } ::
        { role := "model", parts := [r.response] } :: buildHistory rs := rfl

theorem buildHistory_length (rows : List ChatMessage) :
    (buildHistory rows).length = 2 * rows.length := by
  induction rows with
  | nil => rfl
  | cons r rs ih =>
    rw [buildHistory_cons]
    simp only [List.length_cons, ih]
    omega

theorem buildHistory_getElem_even (rows : List ChatMessage) (i : Nat) :
    (buildHistory rows)[2 * i]? =
      rows[i]?.map (fun r => ({ role := "user", parts := [r.message] } : Turn)) := by
  induction rows generalizing i with
  | nil => simp [buildHistory]
  | cons r rs ih =>
    cases i with
    | zero => simp [buildHistory_cons]
    | succ j =>
      have h2 : 2 * (j + 1) = 2 * j + 1 + 1 := by omega
      rw [buildHistory_cons, h2]
      simp only [List.getElem?_cons_succ]
      exact ih j

theorem buildHistory_getElem_odd (rows : List ChatMessage) (i : Nat) :
    (buildHistory rows)[2 * i + 1]? =
      rows[i]?.map (fun r => ({ role := "model", parts := [r.response] } : Turn)) := by
  induction rows generalizing i with
  | nil => simp [buildHistory]
  | cons r rs ih =>
    cases i with
    | zero => simp [buildHistory_cons]
    | succ j =>
      have h2 : 2 * (j + 1) + 1 = 2 * j + 1 + 1 + 1 := by omega
      rw [buildHistory_cons, h2]
      simp only [List.getElem?_cons_succ]
      exact ih j

/-- A `register` outcome that left everything as it was: an error response,
the database unchanged, and the caller's Flask session fields unchanged (in
particular, nobody was logged in by the request). -/
def registerUnchanged (db : Db) (pu ps : Option Nat) (r : RegisterResult) : Prop :=
  r.resp.isErr = true ∧ r.db = db ∧ r.sessionUserId = pu ∧ r.sessionSessionId = ps

/-! ## Claim theorems -/

/-- C2: for every `/ask` request whose JSON `message` field is empty, missing,
or only whitespace (so that the stripped input is empty), the endpoint returns
the error `"No message provided"` and the database — in particular
`chat_messages` — is unchanged, whatever the state of the model, the
connection, the AI call or the insert. -/
theorem ask_empty_message_rejected (db : Db) (uid sid : Nat) (msg : Option String)
    (modelOk connOk historyOk : Bool) (aiResult : Except String String)
    (saveOk : Bool) (now : Nat)
    (h : strip (msg.getD "") = "") :
    (ask db uid sid true msg modelOk connOk historyOk aiResult saveOk now).resp =
      AskResp.error "No message provided" ∧
    (ask db uid sid true msg modelOk connOk historyOk aiResult saveOk now).db = db := by
  simp [ask, h]

/-- Witness for C2: the whitespace-only message `"   "` and a missing message
field are both rejected without touching the database. -/
theorem ask_empty_message_rejected_witness :
    ((ask sampleDb 1 1 true (some "   ") true true true (Except.ok "hi") true 5).resp =
        AskResp.error "No message provided" ∧
      (ask sampleDb 1 1 true (some "   ") true true true (Except.ok "hi") true 5).db = sampleDb) ∧
    ((ask sampleDb 1 1 true none true true true (Except.ok "hi") true 5).resp =
        AskResp.error "No message provided" ∧
      (ask sampleDb 1 1 true none true true true (Except.ok "hi") true 5).db = sampleDb) :=
  ⟨ask_empty_message_rejected sampleDb 1 1 (some "   ") true true true
      (Except.ok "hi") true 5 (by decide),
   ask_empty_message_rejected sampleDb 1 1 none true true true
      (Except.ok "hi") true 5 (by decide)⟩

/-- C9: for every `/ask` request whose stripped message lowercases to
`"exit"`, the endpoint returns the fixed response `"Chat session ended."`,
never calls the AI model, and leaves the database unchanged — a
successful-looking response that adds no row to the session. -/
theorem ask_exit_short_circuit (db : Db) (uid sid : Nat) (msg : Option String)
    (modelOk connOk historyOk : Bool) (aiResult : Except String String)
    (saveOk : Bool) (now : Nat)
    (h : lower (strip (msg.getD "")) = "exit") :
    (ask db uid sid true msg modelOk connOk historyOk aiResult saveOk now).resp =
      AskResp.response "Chat session ended." ∧
    (ask db uid sid true msg modelOk connOk historyOk aiResult saveOk now).db = db ∧
    (ask db uid sid true msg modelOk connOk historyOk aiResult saveOk now).aiCalled = false := by
  have hne : strip (msg.getD "") ≠ "" := by
    intro h0
    rw [h0] at h
    exact absurd h (by decide)
  simp [ask, hne, h]

/-- Witness for C9: the message `"  ExIt "` (whitespace and mixed case)
short-circuits: fixed reply, no AI call, no new row. -/
theorem ask_exit_short_circuit_witness :
    (ask sampleDb 1 1 true (some "  ExIt ") true true true (Except.ok "hi") true 5).resp =
      AskResp.response "Chat session ended." ∧
    (ask sampleDb 1 1 true (some "  ExIt ") true true true (Except.ok "hi") true 5).db = sampleDb ∧
    (ask sampleDb 1 1 true (some "  ExIt ") true true true (Except.ok "hi") true 5).aiCalled = false :=
  ask_exit_short_circuit sampleDb 1 1 (some "  ExIt ") true true true
    (Except.ok "hi") true 5 (by decide)

/-- C10: `/clear_history` answers `{"status": "success", "message":
"Chat history cleared"}` for every combination of connection and transaction
outcomes; in particular, when no database connection can be obtained the
database is untouched (user 1 still has messages) yet the response still says
success, so the success response does not imply the history was cleared. -/
theorem clear_history_always_reports_success :
    (∀ (db : Db) (uid : Nat) (connOk deleteOk insertOk : Bool) (cur now : Nat),
      (clear_history db uid connOk deleteOk insertOk cur now).status = "success" ∧
      (clear_history db uid connOk deleteOk insertOk cur now).message =
        "Chat history cleared") ∧
    ((clear_history sampleDb 1 false true true 5 99).db = sampleDb ∧
      (clear_history sampleDb 1 false true true 5 99).db.chat_messages.length = 2 ∧
      (clear_history sampleDb 1 false true true 5 99).status = "success") := by
  constructor
  · intro db uid connOk deleteOk insertOk cur now
    cases connOk <;> cases deleteOk <;> cases insertOk <;> simp [clear_history]
  · exact ⟨rfl, by decide, rfl⟩

/-- C1 counterexample: a `/ask` call with message `"exit"` by user 1 on the
active session 1 succeeds — it returns a response, not an error — yet inserts
no row into `chat_messages`, refuting "a successful call results in exactly
one new row" as stated.  (All environment flags are favourable: model
initialized, connection available, insert would succeed.) -/
theorem ask_success_one_row_counterexample :
    (ask sampleDb 1 1 true (some "exit") true true true (Except.ok "unused") true 5).resp =
      AskResp.response "Chat session ended." ∧
    (ask sampleDb 1 1 true (some "exit") true true true (Except.ok "unused") true 5).db.chat_messages =
      sampleDb.chat_messages := by
  decide

/-- C1 (amended): for every authenticated user with an active session, an
`/ask` call whose stripped message is nonempty and does not lowercase to
`"exit"`, made while the model is initialized, the database connection is
available, the AI call returns a reply, and the insert commits, returns that
reply and appends exactly one new row to `chat_messages` — carrying the
active session's id, the caller's id, the stripped submitted message, and
the returned reply. -/
theorem ask_success_inserts_one_row (db : Db) (uid sid : Nat) (msg : Option String)
    (historyOk : Bool) (reply : String) (now : Nat)
    (hmsg : strip (msg.getD "") ≠ "")
    (hexit : lower (strip (msg.getD "")) ≠ "exit") :
    (ask db uid sid true msg true true historyOk (Except.ok reply) true now).resp =
      AskResp.response reply ∧
    (ask db uid sid true msg true true historyOk (Except.ok reply) true now).db.chat_messages =
      db.chat_messages ++
        [{ id := db.nextMessageId, session_id := sid, user_id := uid,
           message := strip (msg.getD ""), response := reply, timestamp := now }] := by
  simp [ask, hmsg, hexit]

/-- Witness for the amended C1: asking `"hello"` with reply `"hi"` appends
exactly the one corresponding row. -/
theorem ask_success_inserts_one_row_witness :
    (ask sampleDb 1 1 true (some "hello") true true true (Except.ok "hi") true 5).resp =
      AskResp.response "hi" ∧
    (ask sampleDb 1 1 true (some "hello") true true true (Except.ok "hi") true 5).db.chat_messages =
      sampleDb.chat_messages ++
        [{ id := 3, session_id := 1, user_id := 1, message := "hello",
           response := "hi", timestamp := 5 }] := by
  have h := ask_success_inserts_one_row sampleDb 1 1 (some "hello") true "hi" 5
    (by decide) (by decide)
  refine ⟨h.1, ?_⟩
  rw [h.2]
  decide

/-- C8: with a nonempty, non-`"exit"` message and the model initialized,
(1) if the AI call raises with message `e`, `/ask` returns the JSON error
`"Error: " ++ e` (the single AI call of the handler — there is no retry) and
the database is unchanged; (2) if the AI call returns a reply but the insert
fails and is rolled back, `/ask` still returns the reply while
`chat_messages` is unchanged — the reply is shown but not saved. -/
theorem ask_ai_failure_modes (db : Db) (uid sid : Nat) (msg : Option String)
    (historyOk : Bool) (now : Nat)
    (hmsg : strip (msg.getD "") ≠ "")
    (hexit : lower (strip (msg.getD "")) ≠ "exit") :
    (∀ e : String,
      (ask db uid sid true msg true true historyOk (Except.error e) true now).resp =
        AskResp.error ("Error: " ++ e) ∧
      (ask db uid sid true msg true true historyOk (Except.error e) true now).db = db) ∧
    (∀ reply : String,
      (ask db uid sid true msg true true historyOk (Except.ok reply) false now).resp =
        AskResp.response reply ∧
      (ask db uid sid true msg true true historyOk (Except.ok reply) false now).db = db) := by
  constructor
  · intro e
    simp [ask, hmsg, hexit]
  · intro reply
    simp [ask, hmsg, hexit]

/-- Witness for C8: a raising AI call yields the error JSON with the database
untouched, and a failed insert still returns the reply `"hi"` with
`chat_messages` untouched. -/
theorem ask_ai_failure_modes_witness :
    ((ask sampleDb 1 1 true (some "hello") true true true (Except.error "boom") true 5).resp =
        AskResp.error "Error: boom" ∧
      (ask sampleDb 1 1 true (some "hello") true true true (Except.error "boom") true 5).db =
        sampleDb) ∧
    ((ask sampleDb 1 1 true (some "hello") true true true (Except.ok "hi") false 5).resp =
        AskResp.response "hi" ∧
      (ask sampleDb 1 1 true (some "hello") true true true (Except.ok "hi") false 5).db =
        sampleDb) := by
  have h := ask_ai_failure_modes sampleDb 1 1 (some "hello") true 5 (by decide) (by decide)
  refine ⟨?_, ?_⟩
  · have h1 := h.1 "boom"
    exact ⟨by simpa using h1.1, h1.2⟩
  · have h2 := h.2 "hi"
    have hdb : (ask sampleDb 1 1 true (some "hello") true true true
        (Except.ok "hi") false 5).db = sampleDb := by
      have := h2.2
      simpa using this
    exact ⟨h2.1, hdb⟩

/-- C3: (1) whenever the `session_id` passed to `/switch_session` does not
name a session of the authenticated user, the request is answered with an
error and the caller's active session is unchanged, whatever the connection
and query outcomes; (2) whenever it does name a session of the user (session
ids are `SERIAL`, hence nonzero) and the request is well-formed JSON with a
working connection, the endpoint returns status success with that session's
messages in the order produced by the handler's query, and makes it
active. -/
theorem switch_session_ownership (db : Db) (uid cur : Nat) (sidOpt : Option Nat)
    (isJson connOk checkOk fetchOk : Bool) :
    ((∀ sid, sidOpt = some sid →
        ∀ s ∈ db.chat_sessions, ¬(s.id = sid ∧ s.user_id = uid)) →
      (∃ e, (switch_session db uid cur isJson sidOpt connOk checkOk fetchOk).resp =
        SwitchResp.error e) ∧
      (switch_session db uid cur isJson sidOpt connOk checkOk fetchOk).activeSession = cur) ∧
    (∀ sid, sid ≠ 0 →
      (∃ s ∈ db.chat_sessions, s.id = sid ∧ s.user_id = uid) →
      (switch_session db uid cur true (some sid) true true true).resp =
        SwitchResp.success (sessionRows db sid) ∧
      (switch_session db uid cur true (some sid) true true true).activeSession = sid) := by
  constructor
  · intro h
    cases isJson with
    | false => exact ⟨⟨"Request must be JSON", rfl⟩, rfl⟩
    | true =>
      cases sidOpt with
      | none => exact ⟨⟨"No session ID provided", rfl⟩, rfl⟩
      | some sid =>
        by_cases h0 : sid = 0
        · simp [switch_session, h0]
        · have hany : db.chat_sessions.any
              (fun s => s.id == sid && s.user_id == uid) = false := by
            rw [List.any_eq_false]
            intro s hs
            have := h sid rfl s hs
            simp only [Bool.and_eq_true, beq_iff_eq]
            tauto
          cases connOk <;> cases checkOk <;> simp [switch_session, h0, hany]
  · intro sid h0 hown
    obtain ⟨s, hs, hid, huid⟩ := hown
    have hany : db.chat_sessions.any
        (fun t => t.id == sid && t.user_id == uid) = true := by
      rw [List.any_eq_true]
      exact ⟨s, hs, by simp [hid, huid]⟩
    simp [switch_session, h0, hany]

/-- Witness for C3: user 1 switching to session 2 (owned by user 2) is
rejected and stays on session 5; switching to their own session 1 succeeds,
returns its rows, and makes it active. -/
theorem switch_session_ownership_witness :
    ((∃ e, (switch_session sampleDb 1 5 true (some 2) true true true).resp =
        SwitchResp.error e) ∧
      (switch_session sampleDb 1 5 true (some 2) true true true).activeSession = 5) ∧
    ((switch_session sampleDb 1 5 true (some 1) true true true).resp =
        SwitchResp.success (sessionRows sampleDb 1) ∧
      (switch_session sampleDb 1 5 true (some 1) true true true).activeSession = 1) := by
  constructor
  · exact (switch_session_ownership sampleDb 1 5 (some 2) true true true true).1
      (by intro sid hsid s hs; simp at hsid; subst hsid; revert s hs; decide)
  · exact (switch_session_ownership sampleDb 1 5 (some 1) true true true true).2 1
      (by decide) ⟨{ id := 1, user_id := 1, created_at := 0 }, by decide, rfl, rfl⟩

/-- C4 (code defect): in `home` and `switch_session` the query aliases
`to_char(timestamp, 'HH24:MI')` to the output name `timestamp`, and
PostgreSQL resolves the bare `ORDER BY timestamp` to that output alias, so
the rows come back ordered by the time-of-day string rather than by the
stored timestamp.  Concretely, session 1 of `sampleDb` holds a message at
timestamp 82800 (day one, 23:00) and a later one at 90000 (day two, 01:00),
yet `switch_session` returns the later message first; the history query of
`ask`, whose select list does not shadow `timestamp`, returns the same rows
in true timestamp order. -/
theorem switch_session_midnight_misorder :
    (switch_session sampleDb 1 5 true (some 1) true true true).resp =
      SwitchResp.success
        [{ question := "b", response := "B", timestamp := "01:00" },
         { question := "a", response := "A", timestamp := "23:00" }] ∧
    (sessionMessagesByHHMI sampleDb 1).map (fun m => m.timestamp) = [90000, 82800] ∧
    (sessionMessagesByTime sampleDb 1).map (fun m => m.timestamp) = [82800, 90000] ∧
    ¬ List.Sorted (fun a b => a.timestamp ≤ b.timestamp)
        (sessionMessagesByHHMI sampleDb 1) := by
  refine ⟨by decide, by decide, by decide, ?_⟩
  intro hs
  rw [show sessionMessagesByHHMI sampleDb 1 =
      [{ id := 2, session_id := 1, user_id := 1, message := "b",
         response := "B", timestamp := 90000 },
       { id := 1, session_id := 1, user_id := 1, message := "a",
         response := "A", timestamp := 82800 }] from by decide] at hs
  have h12 := List.rel_of_pairwise_cons hs (List.mem_singleton.mpr rfl)
  simp at h12

/-- C5: when the connection is available and both transactions commit, after
`/clear_history` the user owns exactly one chat session — the freshly
inserted one — which is made active and contains zero messages.  The
freshness hypothesis states that the `SERIAL` sequence value for the new
session id is not already referenced by any stored message, which PostgreSQL
sequences guarantee. -/
theorem clear_history_one_empty_session (db : Db) (uid cur now : Nat)
    (hfresh : ∀ m ∈ db.chat_messages, m.session_id ≠ db.nextSessionId) :
    (clear_history db uid true true true cur now).db.chat_sessions.filter
        (fun s => s.user_id == uid) =
      [{ id := db.nextSessionId, user_id := uid, created_at := now }] ∧
    (clear_history db uid true true true cur now).db.chat_messages.filter
        (fun m => m.session_id == db.nextSessionId) = [] ∧
    (clear_history db uid true true true cur now).activeSession = db.nextSessionId := by
  have hc : (clear_history db uid true true true cur now).db =
      { users := db.users,
        chat_sessions := db.chat_sessions.filter (fun s => !(s.user_id == uid)) ++
          [{ id := db.nextSessionId, user_id := uid, created_at := now }],
        chat_messages := db.chat_messages.filter (fun m =>
          !(m.user_id == uid) &&
          !((db.chat_sessions.filter (fun s => s.user_id == uid)).any
            (fun s => s.id == m.session_id))),
        nextUserId := db.nextUserId, nextSessionId := db.nextSessionId + 1,
        nextMessageId := db.nextMessageId } := rfl
  refine ⟨?_, ?_, rfl⟩
  · rw [hc]
    simp only [List.filter_append, List.filter_filter]
    simp
  · rw [hc]
    simp only [List.filter_filter]
    rw [List.filter_eq_nil_iff]
    intro m hm
    simp [hfresh m hm]

/-- Witness for C5: clearing the history of user 1 in `sampleDb` leaves
exactly the one fresh empty session 3, which is active. -/
theorem clear_history_one_empty_session_witness :
    (clear_history sampleDb 1 true true true 5 99).db.chat_sessions.filter
        (fun s => s.user_id == 1) =
      [{ id := 3, user_id := 1, created_at := 99 }] ∧
    (clear_history sampleDb 1 true true true 5 99).db.chat_messages.filter
        (fun m => m.session_id == 3) = [] ∧
    (clear_history sampleDb 1 true true true 5 99).activeSession = 3 :=
  clear_history_one_empty_session sampleDb 1 5 99 (by decide)

/-- C7: for every `/ask` call with a nonempty, non-`"exit"` message while the
model is initialized and the history query succeeds, the history handed to
the AI client is exactly `askHistory db sid`: it has twice as many entries as
the session's stored rows, and, for the `i`-th stored row in time order,
entry `2*i` is a `user` turn carrying the stored message and entry `2*i + 1`
a `model` turn carrying the stored response.  The stored rows are traversed
sorted by the stored timestamp and are a permutation of the session's rows. -/
theorem ask_history_alternating (db : Db) (uid sid : Nat) (msg : Option String)
    (aiResult : Except String String) (saveOk : Bool) (now : Nat)
    (hmsg : strip (msg.getD "") ≠ "")
    (hexit : lower (strip (msg.getD "")) ≠ "exit") :
    (ask db uid sid true msg true true true aiResult saveOk now).historySent =
      some (askHistory db sid) ∧
    (askHistory db sid).length = 2 * (sessionMessagesByTime db sid).length ∧
    (∀ i : Nat, (askHistory db sid)[2 * i]? =
      (sessionMessagesByTime db sid)[i]?.map
        (fun r => ({ role := "user", parts := [r.message] } : Turn))) ∧
    (∀ i : Nat, (askHistory db sid)[2 * i + 1]? =
      (sessionMessagesByTime db sid)[i]?.map
        (fun r => ({ role := "model", parts := [r.response] } : Turn))) ∧
    List.Sorted (fun a b => a.timestamp ≤ b.timestamp) (sessionMessagesByTime db sid) ∧
    List.Perm (sessionMessagesByTime db sid)
      (db.chat_messages.filter (fun m => m.session_id == sid)) := by
  refine ⟨?_, buildHistory_length _, fun i => buildHistory_getElem_even _ i,
    fun i => buildHistory_getElem_odd _ i, ?_, ?_⟩
  · cases aiResult <;> simp [ask, hmsg, hexit]
  · haveI h1 : IsTotal ChatMessage (fun a b => a.timestamp ≤ b.timestamp) :=
      ⟨fun a b => Nat.le_total a.timestamp b.timestamp⟩
    haveI h2 : IsTrans ChatMessage (fun a b => a.timestamp ≤ b.timestamp) :=
      ⟨fun a b c hab hbc => Nat.le_trans hab hbc⟩
    exact List.sorted_insertionSort _ _
  · exact List.perm_insertionSort _ _

/-- Witness for C7: for session 1 of `sampleDb` (two stored rows), the
history sent has length 4 and its entries 2 and 3 are the user/model turns of
the second stored row. -/
theorem ask_history_alternating_witness :
    (ask sampleDb 1 1 true (some "hello") true true true (Except.ok "hi") true 5).historySent =
      some (askHistory sampleDb 1) ∧
    (askHistory sampleDb 1).length = 2 * (sessionMessagesByTime sampleDb 1).length ∧
    (askHistory sampleDb 1)[2 * 1]? = some { role := "user", parts := ["b"] } ∧
    (askHistory sampleDb 1)[2 * 1 + 1]? = some { role := "model", parts := ["B"] } := by
  have h := ask_history_alternating sampleDb 1 1 (some "hello") (Except.ok "hi") true 5
    (by decide) (by decide)
  refine ⟨h.1, h.2.1, ?_, ?_⟩
  · rw [h.2.2.1 1]
    decide
  · rw [h.2.2.2.1 1]
    decide

/-- C6: registration leaves the state unchanged and logs nobody in whenever
(1) the stripped requested username already exists, (2) the supplied
non-empty stripped email already exists, or (3) the password is shorter than
6 characters; and (4) if a registration of a username succeeded, registering
the same username again afterwards fails, whatever the other inputs of the
second request. -/
theorem register_checks (db : Db) (username password email : String)
    (hash : String → String) (connOk insertOk : Bool) (pu ps : Option Nat)
    (now : Nat) :
    ((∃ u ∈ db.users, u.username = strip username) →
      registerUnchanged db pu ps
        (register db username password email hash connOk insertOk pu ps now)) ∧
    ((strip email ≠ "" ∧ ∃ u ∈ db.users, u.email = some (strip email)) →
      registerUnchanged db pu ps
        (register db username password email hash connOk insertOk pu ps now)) ∧
    (password.length < 6 →
      registerUnchanged db pu ps
        (register db username password email hash connOk insertOk pu ps now)) ∧
    (∀ (password2 email2 : String) (hash2 : String → String)
        (connOk2 insertOk2 : Bool) (pu2 ps2 : Option Nat) (now2 : Nat),
      (register db username password email hash connOk insertOk pu ps now).resp =
        RegisterResp.redirectHome →
      registerUnchanged
        (register db username password email hash connOk insertOk pu ps now).db pu2 ps2
        (register (register db username password email hash connOk insertOk pu ps now).db
          username password2 email2 hash2 connOk2 insertOk2 pu2 ps2 now2)) := by
  refine ⟨?_, ?_, ?_, ?_⟩
  · rintro ⟨u, hu, hname⟩
    have hany : db.users.any (fun v => v.username == strip username) = true := by
      rw [List.any_eq_true]
      exact ⟨u, hu, by simp [hname]⟩
    by_cases h1 : strip username = "" ∨ password = ""
    · simp [register, registerUnchanged, RegisterResp.isErr, h1]
    · by_cases h2 : password.length < 6
      · simp [register, registerUnchanged, RegisterResp.isErr, h1, h2]
      · cases connOk with
        | false => simp [register, registerUnchanged, RegisterResp.isErr, h1, h2]
        | true => simp [register, registerUnchanged, RegisterResp.isErr, h1, h2, hany]
  · rintro ⟨hmail, u, hu, hemail⟩
    have hanyE : db.users.any (fun v => v.email == some (strip email)) = true := by
      rw [List.any_eq_true]
      exact ⟨u, hu, by simp [hemail]⟩
    by_cases h1 : strip username = "" ∨ password = ""
    · simp [register, registerUnchanged, RegisterResp.isErr, h1]
    · by_cases h2 : password.length < 6
      · simp [register, registerUnchanged, RegisterResp.isErr, h1, h2]
      · cases connOk with
        | false => simp [register, registerUnchanged, RegisterResp.isErr, h1, h2]
        | true =>
          by_cases h3 : db.users.any (fun v => v.username == strip username) = true
          · simp [register, registerUnchanged, RegisterResp.isErr, h1, h2, h3]
          · simp [register, registerUnchanged, RegisterResp.isErr, h1, h2, h3,
              hmail, hanyE]
  · intro hlen
    by_cases h1 : strip username = "" ∨ password = ""
    · simp [register, registerUnchanged, RegisterResp.isErr, h1]
    · simp [register, registerUnchanged, RegisterResp.isErr, h1, hlen]
  · intro p2 e2 hash2 c2 i2 pu2 ps2 now2 hsucc
    by_cases h1 : strip username = "" ∨ password = ""
    · simp [register, h1] at hsucc
    · by_cases h2 : password.length < 6
      · simp [register, h1, h2] at hsucc
      · cases connOk with
        | false => simp [register, h1, h2] at hsucc
        | true =>
          by_cases h3 : db.users.any (fun v => v.username == strip username) = true
          · simp [register, h1, h2, h3] at hsucc
          · by_cases h4 : strip email ≠ "" ∧
                db.users.any (fun v => v.email == some (strip email)) = true
            · simp [register, h1, h2, h3, h4] at hsucc
            · cases insertOk with
              | false =>
                exfalso
                simp only [register] at hsucc
                rw [if_neg h1, if_neg h2,
                  if_neg (show ¬((!true) = true) by simp), if_neg h3,
                  if_neg h4] at hsucc
                simp at hsucc
              | true =>
                have husers : (register db username password email hash true true
                    pu ps now).db.users =
                    db.users ++
                      [{ id := db.nextUserId, username := strip username,
                         password := hash password,
                         email := if strip email = "" then none
                           else some (strip email),
                         created_at := now }] := by
                  simp only [register]
                  rw [if_neg h1, if_neg h2,
                    if_neg (show ¬((!true) = true) by simp), if_neg h3, if_neg h4,
                    if_neg (show ¬((!true) = true) by simp)]
                set D := (register db username password email hash true true
                  pu ps now).db with hD
                have hany2 : D.users.any
                    (fun v => v.username == strip username) = true := by
                  rw [hD, husers]
                  simp
                by_cases g1 : strip username = "" ∨ p2 = ""
                · simp [register, registerUnchanged, RegisterResp.isErr, g1]
                · by_cases g2 : p2.length < 6
                  · simp [register, registerUnchanged, RegisterResp.isErr, g1, g2]
                  · cases c2 with
                    | false =>
                        simp [register, registerUnchanged, RegisterResp.isErr, g1, g2]
                    | true =>
                        simp [register, registerUnchanged, RegisterResp.isErr,
                          g1, g2, hany2]

/-- Witness for C6: in `sampleDb` (user `"alice"` with email `"a@x"`),
registering `"alice"` again fails, registering a fresh name with the taken
email fails, a five-character password fails, and after a successful fresh
registration of `"bob"` the identical second request fails. -/
theorem register_checks_witness :
    registerUnchanged sampleDb none none
      (register sampleDb "alice" "longpassword" "" (fun p => p) true true
        none none 7) ∧
    registerUnchanged sampleDb none none
      (register sampleDb "carol" "longpassword" "a@x" (fun p => p) true true
        none none 7) ∧
    registerUnchanged sampleDb none none
      (register sampleDb "carol" "short" "" (fun p => p) true true none none 7) ∧
    ((register sampleDb "bob" "longpassword" "" (fun p => p) true true
        none none 7).resp = RegisterResp.redirectHome ∧
      registerUnchanged
        (register sampleDb "bob" "longpassword" "" (fun p => p) true true
          none none 7).db none none
        (register (register sampleDb "bob" "longpassword" "" (fun p => p) true true
          none none 7).db "bob" "longpassword" "" (fun p => p) true true
          none none 7)) := by
  refine ⟨?_, ?_, ?_, ?_⟩
  · exact (register_checks sampleDb "alice" "longpassword" "" (fun p => p)
      true true none none 7).1 ⟨alice, by decide, by decide⟩
  · exact (register_checks sampleDb "carol" "longpassword" "a@x" (fun p => p)
      true true none none 7).2.1 ⟨by decide, ⟨alice, by decide, by decide⟩⟩
  · exact (register_checks sampleDb "carol" "short" "" (fun p => p)
      true true none none 7).2.2.1 (by decide)
  · have hsucc : (register sampleDb "bob" "longpassword" "" (fun p => p) true true
        none none 7).resp = RegisterResp.redirectHome := by decide
    exact ⟨hsucc, (register_checks sampleDb "bob" "longpassword" "" (fun p => p)
      true true none none 7).2.2.2 "longpassword" "" (fun p => p) true true
      none none 7 hsucc⟩

end GeminiChat
